import Mathlib

/-!
Shallow embedding of the multi-step resume-builder wizard implemented in
`src/app/ResumeBuilder.tsx`: the `ResumeData` aggregate, the per-step
validation rules (`validateStep`), the wizard navigation (`nextStep`,
`prevStep`, sidebar jump), the collection mutations
(`addWorkExperience` / `removeWorkExperience` / `updateWorkExperience`
and the symmetric education/skill operations), and the derived
completion percentage (`getCompletionPercentage`).

JavaScript string semantics used by the source are modelled explicitly:
string truthiness (`!s` is true exactly for the empty string),
`String.prototype.trim` over the ECMAScript whitespace set, and the
unanchored regular-expression search performed by
`/\S+@\S+\.\S+/.test(email)`.

Item ids are produced by `Date.now().toString()` in the source; the
creation operations therefore take the current clock reading (a natural
number of milliseconds) as an explicit argument.
-/

namespace ResumeBuilder

/-! ## JavaScript string primitives -/

/-- Code points of the ECMAScript whitespace class (the characters matched
by `\s`, and stripped by `String.prototype.trim`): WhiteSpace together with
LineTerminator. -/
def jsWhitespace : List Nat :=
  [0x9, 0xA, 0xB, 0xC, 0xD, 0x20, 0xA0, 0x1680,
   0x2000, 0x2001, 0x2002, 0x2003, 0x2004, 0x2005, 0x2006, 0x2007,
   0x2008, 0x2009, 0x200A, 0x2028, 0x2029, 0x202F, 0x205F, 0x3000, 0xFEFF]

/-- Whether a character belongs to the ECMAScript whitespace class; `\S`
matches exactly the characters for which this is `false`. -/
def isJsSpace (c : Char) : Bool :=
  jsWhitespace.contains c.toNat

/-- `String.prototype.trim`: strip leading and trailing ECMAScript
whitespace. -/
def jsTrim (s : String) : String :=
  ⟨((s.toList.dropWhile isJsSpace).reverse.dropWhile isJsSpace).reverse⟩

/-- A run usable for `\S+` (once nonempty): every character is
non-whitespace. -/
def nonSpaceRun (l : List Char) : Bool :=
  l.all fun c => !isJsSpace c

/-- A character list matching the regular expression `\S+@\S+\.\S+`
exactly (anchored at both ends): a nonempty all-non-space run, `@`, a
nonempty all-non-space run, `.`, a nonempty all-non-space run. -/
def matchesEmailCore (w : List Char) : Prop :=
  ∃ A B C : List Char, A ≠ [] ∧ B ≠ [] ∧ C ≠ [] ∧
    nonSpaceRun A = true ∧ nonSpaceRun B = true ∧ nonSpaceRun C = true ∧
    w = A ++ '@' :: (B ++ '.' :: C)

/-- `/\S+@\S+\.\S+/.test(s)` as a proposition: some contiguous substring
of `s` matches the pattern (JavaScript `test` performs an unanchored
search). -/
def emailMatches (s : String) : Prop :=
  ∃ mid : List Char, ∃ pre post : List Char,
    s.toList = pre ++ mid ++ post ∧ matchesEmailCore mid

/-- Executable form of `/\S+@\S+\.\S+/.test(s)`: there are positions
`i < j` carrying `@` and `.` such that the window from `i - 1` to `j + 1`
is entirely non-whitespace (the window supplies the one-character `\S+`
runs on the outside and the run between `@` and `.`).  Proved equivalent
to `emailMatches` below. -/
def emailRegexTest (s : String) : Bool :=
  let cs := s.toList
  let n := cs.length
  (List.range n).any fun i =>
    (List.range n).any fun j =>
      decide (1 ≤ i) && decide (i + 2 ≤ j) && decide (j + 2 ≤ n) &&
      (cs.getD i ' ' == '@') && (cs.getD j ' ' == '.') &&
      ((List.range (j + 3 - i)).all fun m => !isJsSpace (cs.getD (i - 1 + m) ' '))

/-! ## Data model (`ContactInfo`, `WorkExperience`, `Education`, `Skill`,
`ResumeData`, `ValidationErrors`) -/

structure ContactInfo where
  firstName : String
  lastName : String
  email : String
  phone : String
  address : String
  city : String
  state : String
  zipCode : String
deriving DecidableEq, Repr

structure WorkExperience where
  id : String
  company : String
  position : String
  startDate : String
  endDate : String
  current : Bool
  description : String
deriving DecidableEq, Repr

structure Education where
  id : String
  institution : String
  degree : String
  field : String
  graduationDate : String
  gpa : String
deriving DecidableEq, Repr

inductive SkillLevel where
  | Beginner
  | Intermediate
  | Advanced
  | Expert
deriving DecidableEq, Repr

structure Skill where
  id : String
  name : String
  level : SkillLevel
deriving DecidableEq, Repr

structure ResumeData where
  contactInfo : ContactInfo
  workExperience : List WorkExperience
  education : List Education
  skills : List Skill
  summary : String
deriving DecidableEq, Repr

/-- `ValidationErrors` is an object mapping field/step keys to messages;
modelled as an association list in insertion order (each key is inserted
at most once per validation run). -/
abbrev ValidationErrors := List (String × String)

/-- The five wizard steps (id, title), from the `STEPS` constant. -/
def STEPS : List (String × String) :=
  [("contact", "Contact Information"),
   ("experience", "Work Experience"),
   ("education", "Education"),
   ("skills", "Skills"),
   ("summary", "Summary")]

/-- The empty `ResumeData` created at session start (initial `useState`
value). -/
def initialResumeData : ResumeData :=
  { contactInfo :=
      { firstName := "", lastName := "", email := "", phone := ""
        address := "", city := "", state := "", zipCode := "" }
    workExperience := []
    education := []
    skills := []
    summary := "" }

/-! ## Validation (`validateStep`) -/

/-- The error object built by `validateStep(stepIndex)` before it is
stored with `setErrors`; each branch mirrors one `case` of the source
switch.  JavaScript string truthiness makes `!s` the emptiness test. -/
def validateStepErrors (stepIndex : Nat) (d : ResumeData) : ValidationErrors :=
  match stepIndex with
  | 0 =>
    (if d.contactInfo.firstName.isEmpty then
       [("firstName", "First name is required")] else []) ++
    (if d.contactInfo.lastName.isEmpty then
       [("lastName", "Last name is required")] else []) ++
    (if d.contactInfo.email.isEmpty then
       [("email", "Email is required")]
     else if !emailRegexTest d.contactInfo.email then
       [("email", "Email is invalid")] else []) ++
    (if d.contactInfo.phone.isEmpty then
       [("phone", "Phone is required")] else [])
  | 1 =>
    if d.workExperience.length = 0 then
      [("workExperience", "At least one work experience is required")] else []
  | 2 =>
    if d.education.length = 0 then
      [("education", "At least one education entry is required")] else []
  | 3 =>
    if d.skills.length = 0 then
      [("skills", "At least one skill is required")] else []
  | 4 =>
    if (jsTrim d.summary).isEmpty then
      [("summary", "Summary is required")] else []
  | _ => []

/-- The boolean result of `validateStep`:
`Object.keys(newErrors).length === 0`. -/
def validateStep (stepIndex : Nat) (d : ResumeData) : Bool :=
  (validateStepErrors stepIndex d).length = 0

/-! ## Wizard controller state and navigation -/

/-- The component state the navigation logic touches: `currentStep`,
`resumeData`, and the stored `errors`. -/
structure WizardState where
  currentStep : Nat
  resumeData : ResumeData
  errors : ValidationErrors
deriving DecidableEq, Repr

/-- The state at mount: step 0, the given aggregate, empty errors. -/
def initialWizardState (d : ResumeData) : WizardState :=
  { currentStep := 0, resumeData := d, errors := [] }

/-- `nextStep`: `validateStep(currentStep)` always runs (so `setErrors`
always stores the freshly computed map); `currentStep` is incremented
exactly when the map is empty and `currentStep < STEPS.length - 1`. -/
def nextStep (s : WizardState) : WizardState :=
  if (validateStepErrors s.currentStep s.resumeData).length = 0 ∧
      s.currentStep < STEPS.length - 1 then
    { s with errors := validateStepErrors s.currentStep s.resumeData,
             currentStep := s.currentStep + 1 }
  else
    { s with errors := validateStepErrors s.currentStep s.resumeData }

/-- `prevStep`: decrement when `currentStep > 0`; no validation. -/
def prevStep (s : WizardState) : WizardState :=
  if 0 < s.currentStep then
    { s with currentStep := s.currentStep - 1 }
  else s

/-- Sidebar step-button click: `onClick={() => setCurrentStep(index)}` —
an unconditional jump, no validation and no other state change. -/
def jumpTo (k : Nat) (s : WizardState) : WizardState :=
  { s with currentStep := k }

/-! ## Form state store mutations -/

/-- One contact field, as targeted by the inline
`contactInfo: { ...prev.contactInfo, field: value }` updaters. -/
inductive ContactField where
  | firstName
  | lastName
  | email
  | phone
  | address
  | city
  | state
  | zipCode
deriving DecidableEq, Repr

/-- Replace one `ContactInfo` attribute. -/
def setContactField (f : ContactField) (v : String) (d : ResumeData) : ResumeData :=
  { d with contactInfo :=
      match f with
      | .firstName => { d.contactInfo with firstName := v }
      | .lastName => { d.contactInfo with lastName := v }
      | .email => { d.contactInfo with email := v }
      | .phone => { d.contactInfo with phone := v }
      | .address => { d.contactInfo with address := v }
      | .city => { d.contactInfo with city := v }
      | .state => { d.contactInfo with state := v }
      | .zipCode => { d.contactInfo with zipCode := v } }

/-- `setSummary`: the summary textarea updater. -/
def setSummary (t : String) (d : ResumeData) : ResumeData :=
  { d with summary := t }

/-- `addWorkExperience`: append a fresh item whose id is
`Date.now().toString()`; `now` is the clock reading in milliseconds. -/
def addWorkExperience (now : Nat) (d : ResumeData) : ResumeData :=
  { d with workExperience := d.workExperience ++
      [{ id := toString now, company := "", position := "", startDate := ""
         endDate := "", current := false, description := "" }] }

/-- `removeWorkExperience(id)`:
`workExperience.filter(exp => exp.id !== id)`. -/
def removeWorkExperience (i : String) (d : ResumeData) : ResumeData :=
  { d with workExperience := d.workExperience.filter fun exp => exp.id ≠ i }

/-- A field-value pair for `updateWorkExperience`, one constructor per
key the UI supplies (`company`, `position`, `startDate`, `endDate`,
`current`, `description`), each carrying the value type the
corresponding input produces. -/
inductive WEUpdate where
  | company (v : String)
  | position (v : String)
  | startDate (v : String)
  | endDate (v : String)
  | current (v : Bool)
  | description (v : String)
deriving DecidableEq, Repr

/-- The spread `{ ...exp, [field]: value }`. -/
def applyWEUpdate (e : WorkExperience) (u : WEUpdate) : WorkExperience :=
  match u with
  | .company v => { e with company := v }
  | .position v => { e with position := v }
  | .startDate v => { e with startDate := v }
  | .endDate v => { e with endDate := v }
  | .current v => { e with current := v }
  | .description v => { e with description := v }

/-- `updateWorkExperience(id, field, value)`:
`map(exp => exp.id === id ? { ...exp, [field]: value } : exp)`. -/
def updateWorkExperience (i : String) (u : WEUpdate) (d : ResumeData) : ResumeData :=
  { d with workExperience := d.workExperience.map fun exp =>
      if exp.id = i then applyWEUpdate exp u else exp }

/-- `addEducation`: append a fresh item, id `Date.now().toString()`. -/
def addEducation (now : Nat) (d : ResumeData) : ResumeData :=
  { d with education := d.education ++
      [{ id := toString now, institution := "", degree := "", field := ""
         graduationDate := "", gpa := "" }] }

/-- `removeEducation(id)`: `education.filter(edu => edu.id !== id)`. -/
def removeEducation (i : String) (d : ResumeData) : ResumeData :=
  { d with education := d.education.filter fun edu => edu.id ≠ i }

/-- A field-value pair for `updateEducation`. -/
inductive EduUpdate where
  | institution (v : String)
  | degree (v : String)
  | field (v : String)
  | graduationDate (v : String)
  | gpa (v : String)
deriving DecidableEq, Repr

/-- The spread `{ ...edu, [field]: value }`. -/
def applyEduUpdate (e : Education) (u : EduUpdate) : Education :=
  match u with
  | .institution v => { e with institution := v }
  | .degree v => { e with degree := v }
  | .field v => { e with field := v }
  | .graduationDate v => { e with graduationDate := v }
  | .gpa v => { e with gpa := v }

/-- `updateEducation(id, field, value)`. -/
def updateEducation (i : String) (u : EduUpdate) (d : ResumeData) : ResumeData :=
  { d with education := d.education.map fun edu =>
      if edu.id = i then applyEduUpdate edu u else edu }

/-- `addSkill`: append a fresh skill, id `Date.now().toString()`,
default level `Beginner`. -/
def addSkill (now : Nat) (d : ResumeData) : ResumeData :=
  { d with skills := d.skills ++
      [{ id := toString now, name := "", level := SkillLevel.Beginner }] }

/-- `removeSkill(id)`: `skills.filter(skill => skill.id !== id)`. -/
def removeSkill (i : String) (d : ResumeData) : ResumeData :=
  { d with skills := d.skills.filter fun sk => sk.id ≠ i }

/-- A field-value pair for `updateSkill` (`name` text input; `level`
select whose options are the four levels). -/
inductive SkillUpdate where
  | name (v : String)
  | level (v : SkillLevel)
deriving DecidableEq, Repr

/-- The spread `{ ...skill, [field]: value }`. -/
def applySkillUpdate (s : Skill) (u : SkillUpdate) : Skill :=
  match u with
  | .name v => { s with name := v }
  | .level v => { s with level := v }

/-- `updateSkill(id, field, value)`. -/
def updateSkill (i : String) (u : SkillUpdate) (d : ResumeData) : ResumeData :=
  { d with skills := d.skills.map fun sk =>
      if sk.id = i then applySkillUpdate sk u else sk }

/-! ## Derived completion -/

/-- The `completed` counter of `getCompletionPercentage`: one sequential
`if`-increment per step, with the step conditions written exactly as in
the source (contact: the four required fields truthy; collections:
nonempty; summary: truthy after `trim()`). -/
def completedCount (d : ResumeData) : Nat :=
  (if !d.contactInfo.firstName.isEmpty && !d.contactInfo.lastName.isEmpty &&
      !d.contactInfo.email.isEmpty && !d.contactInfo.phone.isEmpty
   then 1 else 0)
  + (if 0 < d.workExperience.length then 1 else 0)
  + (if 0 < d.education.length then 1 else 0)
  + (if 0 < d.skills.length then 1 else 0)
  + (if !(jsTrim d.summary).isEmpty then 1 else 0)

/-- `Math.round(num / den)` for a nonnegative exact ratio (round half
up).  For `num = completed * 100`, `den = 5` the ratio is the integer
`20 * completed`, so the floating-point evaluation in the source agrees
with this exact rounding at every reachable input. -/
def mathRound (num den : Nat) : Nat :=
  (2 * num + den) / (2 * den)

/-- `getCompletionPercentage`:
`Math.round((completed / STEPS.length) * 100)`. -/
def getCompletionPercentage (d : ResumeData) : Nat :=
  mathRound (completedCount d * 100) STEPS.length

/-- The spec's per-step satisfaction predicate ("isStepSatisfied"),
written from §4.2 / §4.3 of the specification: contact requires the four
required fields present, steps 1-3 require a nonempty collection, step 4
a nonempty trimmed summary.  Used to compare the completion conditions
with the gating validation. -/
def stepSatisfied (d : ResumeData) (k : Nat) : Bool :=
  match k with
  | 0 => !d.contactInfo.firstName.isEmpty && !d.contactInfo.lastName.isEmpty &&
         !d.contactInfo.email.isEmpty && !d.contactInfo.phone.isEmpty
  | 1 => 0 < d.workExperience.length
  | 2 => 0 < d.education.length
  | 3 => 0 < d.skills.length
  | 4 => !(jsTrim d.summary).isEmpty
  | _ => false

/-! ## Navigation intents (for the reachability invariant) -/

/-- A discrete navigation intent the rendering surface can emit: the
Next button, the Previous button, or a sidebar step button (whose index
is one of the five rendered steps). -/
inductive NavIntent where
  | next
  | prev
  | jump (k : Fin 5)
deriving DecidableEq, Repr

/-- Apply one navigation intent to the component state. -/
def applyIntent (s : WizardState) : NavIntent → WizardState
  | .next => nextStep s
  | .prev => prevStep s
  | .jump k => jumpTo k.val s

/-- Run a finite sequence of navigation intents. -/
def runIntents (l : List NavIntent) (s : WizardState) : WizardState :=
  l.foldl applyIntent s

/-! ## Concrete sample data for witnesses and counterexamples -/

/-- All four required contact fields present but the email malformed:
the completion condition for step 0 holds while `validateStep 0`
reports an invalid email. -/
def emailGapData : ResumeData :=
  { initialResumeData with contactInfo :=
      { firstName := "Ada", lastName := "Lovelace", email := "not-an-email",
        phone := "5551234", address := "", city := "", state := "", zipCode := "" } }

def sampleExp : WorkExperience :=
  { id := "100", company := "Acme", position := "Engineer", startDate := "2020-01",
    endDate := "2021-02", current := false, description := "build things" }

def sampleEdu : Education :=
  { id := "200", institution := "MIT", degree := "BSc", field := "CS",
    graduationDate := "2019-06", gpa := "3.9" }

def sampleSkill : Skill :=
  { id := "300", name := "Testing", level := SkillLevel.Advanced }

/-- An aggregate satisfying all five step predicates. -/
def filledData : ResumeData :=
  { contactInfo :=
      { firstName := "Ada", lastName := "Lovelace", email := "ada@mail.com",
        phone := "5551234", address := "", city := "", state := "", zipCode := "" }
    workExperience := [sampleExp]
    education := [sampleEdu]
    skills := [sampleSkill]
    summary := "Seasoned engineer." }

/-! ## Helper lemmas: list lookups through `getD` -/

theorem getD_eq_of_lt (cs : List Char) (p : Nat) (h : p < cs.length) :
    cs.getD p ' ' = cs[p] := by
  rw [List.getD_eq_getElem?_getD, List.getElem?_eq_getElem h, Option.getD_some]

theorem getD_drop (cs : List Char) (p k : Nat) :
    (cs.drop p).getD k ' ' = cs.getD (p + k) ' ' := by
  rw [List.getD_eq_getElem?_getD, List.getD_eq_getElem?_getD, List.getElem?_drop]

theorem getD_of_drop_cons {cs t : List Char} {p : Nat} {c : Char}
    (h : cs.drop p = c :: t) : cs.getD p ' ' = c := by
  have h0 : cs[p]? = some c := by
    rw [← Nat.add_zero p, ← List.getElem?_drop, h, List.getElem?_cons_zero]
  rw [List.getD_eq_getElem?_getD, h0, Option.getD_some]

/-! ## Helper lemmas: the email regular expression -/

/-- `emailRegexTest` unfolded into its index formulation. -/
theorem emailRegexTest_eq_true_iff (s : String) :
    emailRegexTest s = true ↔
      ∃ i j : Nat, 1 ≤ i ∧ i + 2 ≤ j ∧ j + 2 ≤ s.toList.length ∧
        s.toList.getD i ' ' = '@' ∧ s.toList.getD j ' ' = '.' ∧
        ∀ m : Nat, m < j + 3 - i →
          isJsSpace (s.toList.getD (i - 1 + m) ' ') = false := by
  unfold emailRegexTest
  simp only [List.any_eq_true, List.mem_range, List.all_eq_true, Bool.and_eq_true,
    decide_eq_true_eq, beq_iff_eq, Bool.not_eq_true']
  constructor
  · rintro ⟨i, hi, j, hj, ⟨⟨⟨⟨h1, h2⟩, h3⟩, h4⟩, h5⟩, hw⟩
    exact ⟨i, j, h1, h2, h3, h4, h5, hw⟩
  · rintro ⟨i, j, h1, h2, h3, h4, h5, hw⟩
    exact ⟨i, by omega, j, by omega, ⟨⟨⟨⟨h1, h2⟩, h3⟩, h4⟩, h5⟩, hw⟩

/-- Non-whitespace of every lookup in the matched window, stated over the
decomposed suffix `A ++ '@' :: (B ++ '.' :: (C ++ post))`. -/
theorem window_nonspace (A B C post : List Char)
    (hAr : nonSpaceRun A = true) (hBr : nonSpaceRun B = true)
    (hCr : nonSpaceRun C = true) (hC0 : C ≠ [])
    (k : Nat) (hk : k ≤ A.length + B.length + 2) :
    isJsSpace ((A ++ '@' :: (B ++ '.' :: (C ++ post))).getD k ' ') = false := by
  have hA := List.all_eq_true.1 hAr
  have hB := List.all_eq_true.1 hBr
  have hC := List.all_eq_true.1 hCr
  rcases Nat.lt_or_ge k A.length with hlt | hge
  · have h1 : (A ++ '@' :: (B ++ '.' :: (C ++ post)))[k]? = some A[k] := by
      rw [List.getElem?_append_left hlt, List.getElem?_eq_getElem hlt]
    rw [List.getD_eq_getElem?_getD, h1, Option.getD_some]
    simpa using hA _ (A.getElem_mem hlt)
  · rw [List.getD_eq_getElem?_getD, List.getElem?_append_right hge]
    rcases Nat.eq_or_lt_of_le hge with heq | hgt
    · rw [← heq, Nat.sub_self, List.getElem?_cons_zero, Option.getD_some]
      decide
    · have ht : k - A.length = (k - A.length - 1) + 1 := by omega
      rw [ht, List.getElem?_cons_succ]
      rcases Nat.lt_or_ge (k - A.length - 1) B.length with hu | hu
      · rw [List.getElem?_append_left hu, List.getElem?_eq_getElem hu, Option.getD_some]
        simpa using hB _ (B.getElem_mem hu)
      · rw [List.getElem?_append_right hu]
        rcases Nat.eq_or_lt_of_le hu with hue | hue
        · rw [← hue, Nat.sub_self, List.getElem?_cons_zero, Option.getD_some]
          decide
        · have hu2 : k - A.length - 1 - B.length = (k - A.length - 1 - B.length - 1) + 1 := by
            omega
          rw [hu2, List.getElem?_cons_succ]
          have hu3 : k - A.length - 1 - B.length - 1 = 0 := by omega
          have hClen : 0 < C.length := List.length_pos.2 hC0
          rw [hu3, List.getElem?_append_left hClen, List.getElem?_eq_getElem hClen,
            Option.getD_some]
          simpa using hC _ (C.getElem_mem hClen)

/-- The executable regex test decides exactly the search for a substring
of the shape `\S+@\S+\.\S+`. -/
theorem emailRegexTest_iff_matches (s : String) :
    emailRegexTest s = true ↔ emailMatches s := by
  rw [emailRegexTest_eq_true_iff]
  constructor
  · rintro ⟨i, j, hi1, hij, hjn, hat, hdot, hwin⟩
    have hi1n : i - 1 < s.toList.length := by omega
    have hin : i < s.toList.length := by omega
    have hjn' : j < s.toList.length := by omega
    have hj1n : j + 1 < s.toList.length := by omega
    have hat' : s.toList[i] = '@' := by rw [← getD_eq_of_lt _ _ hin]; exact hat
    have hdot' : s.toList[j] = '.' := by rw [← getD_eq_of_lt _ _ hjn']; exact hdot
    have hd1 : s.toList.drop (i - 1) = s.toList[i - 1] :: s.toList.drop i := by
      have e := List.drop_eq_getElem_cons (l := s.toList) (n := i - 1) hi1n
      rwa [show i - 1 + 1 = i from by omega] at e
    have hd2 : s.toList.drop i = '@' :: s.toList.drop (i + 1) := by
      rw [List.drop_eq_getElem_cons hin, hat']
    have hd3 : s.toList.drop (i + 1) =
        (s.toList.drop (i + 1)).take (j - (i + 1)) ++ s.toList.drop j := by
      conv_lhs => rw [← List.take_append_drop (j - (i + 1)) (s.toList.drop (i + 1))]
      congr 1
      rw [List.drop_drop]
      congr 1
      omega
    have hd4 : s.toList.drop j = '.' :: s.toList.drop (j + 1) := by
      rw [List.drop_eq_getElem_cons hjn', hdot']
    have hd5 : s.toList.drop (j + 1) = s.toList[j + 1] :: s.toList.drop (j + 2) :=
      List.drop_eq_getElem_cons hj1n
    have hBlen : ((s.toList.drop (i + 1)).take (j - (i + 1))).length = j - (i + 1) := by
      rw [List.length_take, List.length_drop]
      omega
    refine ⟨[s.toList[i - 1]] ++ '@' ::
        (((s.toList.drop (i + 1)).take (j - (i + 1))) ++ '.' :: [s.toList[j + 1]]),
      s.toList.take (i - 1), s.toList.drop (j + 2), ?_, ?_⟩
    · calc s.toList = s.toList.take (i - 1) ++ s.toList.drop (i - 1) :=
            (List.take_append_drop _ _).symm
        _ = _ := by
            conv_lhs => rw [hd1, hd2, hd3, hd4, hd5]
            simp [List.append_assoc]
    · refine ⟨[s.toList[i - 1]], (s.toList.drop (i + 1)).take (j - (i + 1)),
        [s.toList[j + 1]], by simp, ?_, by simp, ?_, ?_, ?_, rfl⟩
      · exact List.length_pos.1 (by rw [hBlen]; omega)
      · have hw := hwin 0 (by omega)
        rw [Nat.add_zero, getD_eq_of_lt _ _ hi1n] at hw
        simp only [nonSpaceRun, List.all_cons, List.all_nil, Bool.and_true,
          Bool.not_eq_true']
        exact hw
      · rw [nonSpaceRun, List.all_eq_true]
        intro c hc
        rw [List.mem_iff_getElem] at hc
        obtain ⟨k, hk, hck⟩ := hc
        have hk' : k < j - (i + 1) := by rw [hBlen] at hk; exact hk
        have hval : c = s.toList[i + 1 + k] := by
          rw [← hck]
          simp
        have hw := hwin (k + 2) (by omega)
        rw [show i - 1 + (k + 2) = i + 1 + k from by omega,
          getD_eq_of_lt _ _ (by omega)] at hw
        rw [hval]
        simp only [Bool.not_eq_true']
        exact hw
      · have hw := hwin (j + 2 - i) (by omega)
        rw [show i - 1 + (j + 2 - i) = j + 1 from by omega,
          getD_eq_of_lt _ _ hj1n] at hw
        simp only [nonSpaceRun, List.all_cons, List.all_nil, Bool.and_true,
          Bool.not_eq_true']
        exact hw
  · rintro ⟨mid, pre, post, hsplit, A, B, C, hA0, hB0, hC0, hAr, hBr, hCr, hmid⟩
    subst hmid
    have hA1 : 1 ≤ A.length := List.length_pos.2 hA0
    have hB1 : 1 ≤ B.length := List.length_pos.2 hB0
    have hC1 : 1 ≤ C.length := List.length_pos.2 hC0
    have hn : s.toList.length =
        pre.length + A.length + 1 + B.length + 1 + C.length + post.length := by
      rw [hsplit]
      simp [List.length_append]
      omega
    have e1 : s.toList = (pre ++ A) ++ '@' :: (B ++ '.' :: (C ++ post)) := by
      rw [hsplit]
      simp [List.append_assoc]
    have hdropi : s.toList.drop (pre.length + A.length) =
        '@' :: (B ++ '.' :: (C ++ post)) := by
      rw [e1]
      exact List.drop_left' (by simp)
    have e2 : s.toList = ((pre ++ A) ++ '@' :: B) ++ '.' :: (C ++ post) := by
      rw [hsplit]
      simp [List.append_assoc]
    have hdropj : s.toList.drop (pre.length + A.length + 1 + B.length) =
        '.' :: (C ++ post) := by
      rw [e2]
      refine List.drop_left' ?_
      simp [List.length_append]
      omega
    have hdropPre : s.toList.drop pre.length =
        A ++ '@' :: (B ++ '.' :: (C ++ post)) := by
      have e3 : (A ++ '@' :: (B ++ '.' :: C)) ++ post =
          A ++ '@' :: (B ++ '.' :: (C ++ post)) := by
        simp [List.append_assoc]
      rw [hsplit, List.append_assoc]
      exact (List.drop_left pre _).trans e3
    refine ⟨pre.length + A.length, pre.length + A.length + 1 + B.length,
      by omega, by omega, by omega, getD_of_drop_cons hdropi, getD_of_drop_cons hdropj, ?_⟩
    intro m hm
    have hm' : m ≤ B.length + 3 := by omega
    have hp : pre.length + A.length - 1 + m = pre.length + (A.length - 1 + m) := by omega
    rw [hp, ← getD_drop, hdropPre]
    exact window_nonspace A B C post hAr hBr hCr hC0 _ (by omega)

/-! ## Helper lemmas: per-step evaluation of `validateStepErrors` -/

theorem validateStepErrors_zero (d : ResumeData) :
    validateStepErrors 0 d =
      (if d.contactInfo.firstName.isEmpty then
         [("firstName", "First name is required")] else []) ++
      (if d.contactInfo.lastName.isEmpty then
         [("lastName", "Last name is required")] else []) ++
      (if d.contactInfo.email.isEmpty then
         [("email", "Email is required")]
       else if !emailRegexTest d.contactInfo.email then
         [("email", "Email is invalid")] else []) ++
      (if d.contactInfo.phone.isEmpty then
         [("phone", "Phone is required")] else []) := rfl

theorem validateStepErrors_one (d : ResumeData) :
    validateStepErrors 1 d =
      if d.workExperience.length = 0 then
        [("workExperience", "At least one work experience is required")]
      else [] := rfl

theorem validateStepErrors_two (d : ResumeData) :
    validateStepErrors 2 d =
      if d.education.length = 0 then
        [("education", "At least one education entry is required")]
      else [] := rfl

theorem validateStepErrors_three (d : ResumeData) :
    validateStepErrors 3 d =
      if d.skills.length = 0 then
        [("skills", "At least one skill is required")]
      else [] := rfl

theorem validateStepErrors_four (d : ResumeData) :
    validateStepErrors 4 d =
      if (jsTrim d.summary).isEmpty then
        [("summary", "Summary is required")]
      else [] := rfl

/-! ## Helper lemmas: navigation -/

/-- Every single navigation intent preserves the step-range bound. -/
theorem applyIntent_currentStep_le (s : WizardState) (a : NavIntent)
    (h : s.currentStep ≤ 4) : (applyIntent s a).currentStep ≤ 4 := by
  cases a with
  | next =>
    show (nextStep s).currentStep ≤ 4
    unfold nextStep
    split_ifs with hc
    · exact hc.2
    · exact h
  | prev =>
    show (prevStep s).currentStep ≤ 4
    unfold prevStep
    split_ifs with hc
    · show s.currentStep - 1 ≤ 4
      omega
    · exact h
  | jump k =>
    show (jumpTo k.val s).currentStep ≤ 4
    have hk := k.isLt
    show k.val ≤ 4
    omega

/-- The step-range bound is preserved by every intent sequence. -/
theorem runIntents_currentStep_le (l : List NavIntent) :
    ∀ s : WizardState, s.currentStep ≤ 4 → (runIntents l s).currentStep ≤ 4 := by
  induction l with
  | nil => intro s h; exact h
  | cons a t ih =>
    intro s h
    simp only [runIntents, List.foldl_cons]
    exact ih _ (applyIntent_currentStep_le s a h)

/-! ## Claim theorems -/

/-- C1: `nextStep` first runs `validateStep(currentStep)` and always stores
the freshly computed error map; the aggregate is untouched, and
`currentStep` is incremented by exactly 1 precisely when that error map is
empty and `currentStep` is strictly below the last index 4, staying
unchanged otherwise. -/
theorem nextStep_spec (s : WizardState) :
    (nextStep s).resumeData = s.resumeData ∧
    (nextStep s).errors = validateStepErrors s.currentStep s.resumeData ∧
    (nextStep s).currentStep =
      (if validateStepErrors s.currentStep s.resumeData = [] ∧ s.currentStep < 4
       then s.currentStep + 1 else s.currentStep) := by
  have hiff : ((validateStepErrors s.currentStep s.resumeData).length = 0 ∧
      s.currentStep < STEPS.length - 1) ↔
      (validateStepErrors s.currentStep s.resumeData = [] ∧ s.currentStep < 4) := by
    have h45 : STEPS.length - 1 = 4 := rfl
    rw [List.length_eq_zero, h45]
  unfold nextStep
  by_cases h1 : (validateStepErrors s.currentStep s.resumeData).length = 0 ∧
      s.currentStep < STEPS.length - 1
  · rw [if_pos h1, if_pos (hiff.1 h1)]
    exact ⟨rfl, rfl, rfl⟩
  · rw [if_neg h1, if_neg fun hc => h1 (hiff.2 hc)]
    exact ⟨rfl, rfl, rfl⟩

/-- C9: a sidebar step button with index `k` (one of the five rendered
steps) unconditionally sets `currentStep := k`, running no validation: the
aggregate and the stored errors are untouched. -/
theorem jumpTo_spec (k : Fin 5) (s : WizardState) :
    (jumpTo k.val s).currentStep = k.val ∧
    (jumpTo k.val s).resumeData = s.resumeData ∧
    (jumpTo k.val s).errors = s.errors :=
  ⟨rfl, rfl, rfl⟩

/-- C7: from the initial state (`currentStep = 0`) every finite sequence of
next/previous/jump intents keeps `currentStep` within `[0, 4]`; moreover
`prevStep` at step 0 leaves the state unchanged and `nextStep` at step 4
leaves `currentStep` unchanged. -/
theorem currentStep_in_range (l : List NavIntent) (d : ResumeData) :
    (runIntents l (initialWizardState d)).currentStep ≤ 4 ∧
    (∀ s : WizardState, s.currentStep = 0 → prevStep s = s) ∧
    (∀ s : WizardState, s.currentStep = 4 → (nextStep s).currentStep = 4) := by
  refine ⟨runIntents_currentStep_le l _ (by simp [initialWizardState]), ?_, ?_⟩
  · intro s h
    unfold prevStep
    rw [if_neg]
    omega
  · intro s h
    unfold nextStep
    split_ifs with hc
    · exact absurd hc.2 (by rw [h]; decide)
    · exact h

/-- C7 witness: the invariant and the two boundary no-ops at concrete
inputs. -/
theorem currentStep_in_range_witness :
    (runIntents [NavIntent.next, NavIntent.prev, NavIntent.jump 3]
        (initialWizardState initialResumeData)).currentStep ≤ 4 ∧
    prevStep (initialWizardState initialResumeData) = initialWizardState initialResumeData ∧
    (nextStep { currentStep := 4, resumeData := filledData, errors := [] }).currentStep = 4 :=
  ⟨(currentStep_in_range [NavIntent.next, NavIntent.prev, NavIntent.jump 3]
      initialResumeData).1,
   (currentStep_in_range [] initialResumeData).2.1 _ rfl,
   (currentStep_in_range [] initialResumeData).2.2 _ rfl⟩

/-- C5: for each of the collection steps 1 (experience), 2 (education) and
3 (skills), `validateStep` yields exactly the one respective error when the
collection is empty and an empty error map whenever the collection is
nonempty — independent of the items' field contents. -/
theorem validateStep_collections_spec (d : ResumeData) :
    (validateStepErrors 1 d =
        [("workExperience", "At least one work experience is required")] ↔
      d.workExperience = []) ∧
    (validateStepErrors 1 d = [] ↔ d.workExperience ≠ []) ∧
    (validateStepErrors 2 d =
        [("education", "At least one education entry is required")] ↔
      d.education = []) ∧
    (validateStepErrors 2 d = [] ↔ d.education ≠ []) ∧
    (validateStepErrors 3 d = [("skills", "At least one skill is required")] ↔
      d.skills = []) ∧
    (validateStepErrors 3 d = [] ↔ d.skills ≠ []) := by
  rw [validateStepErrors_one, validateStepErrors_two, validateStepErrors_three]
  refine ⟨?_, ?_, ?_, ?_, ?_, ?_⟩ <;>
    · split_ifs with h
      · simp_all [List.length_eq_zero]
      · simp_all [List.length_eq_zero]

/-- C4: at step 0 the validation yields exactly the four required-field
errors and the email-shape error, each present under precisely the stated
condition (`Email is invalid` appears exactly for a non-empty email that
contains no `\S+@\S+\.\S+` substring), every produced entry is one of
those five, and the result never depends on address, city, state or
zipCode. -/
theorem validateStep0_spec (d : ResumeData) :
    (("firstName", "First name is required") ∈ validateStepErrors 0 d ↔
      d.contactInfo.firstName = "") ∧
    (("lastName", "Last name is required") ∈ validateStepErrors 0 d ↔
      d.contactInfo.lastName = "") ∧
    (("email", "Email is required") ∈ validateStepErrors 0 d ↔
      d.contactInfo.email = "") ∧
    (("email", "Email is invalid") ∈ validateStepErrors 0 d ↔
      (d.contactInfo.email ≠ "" ∧ ¬ emailMatches d.contactInfo.email)) ∧
    (("phone", "Phone is required") ∈ validateStepErrors 0 d ↔
      d.contactInfo.phone = "") ∧
    (∀ p ∈ validateStepErrors 0 d,
      p = ("firstName", "First name is required") ∨
      p = ("lastName", "Last name is required") ∨
      p = ("email", "Email is required") ∨
      p = ("email", "Email is invalid") ∨
      p = ("phone", "Phone is required")) ∧
    (∀ a c st z : String,
      validateStepErrors 0
        { d with contactInfo :=
            { d.contactInfo with address := a, city := c, state := st, zipCode := z } } =
        validateStepErrors 0 d) := by
  refine ⟨?_, ?_, ?_, ?_, ?_, ?_, ?_⟩
  · rw [validateStepErrors_zero]
    split_ifs <;> simp_all [String.isEmpty_iff]
  · rw [validateStepErrors_zero]
    split_ifs <;> simp_all [String.isEmpty_iff]
  · rw [validateStepErrors_zero]
    split_ifs <;> simp_all [String.isEmpty_iff]
  · rw [validateStepErrors_zero]
    split_ifs <;>
      simp_all [String.isEmpty_iff, ← emailRegexTest_iff_matches]
  · rw [validateStepErrors_zero]
    split_ifs <;> simp_all [String.isEmpty_iff]
  · rw [validateStepErrors_zero]
    intro p hp
    split_ifs at hp <;> simp_all <;> tauto
  · intro a c st z
    rfl

/-- C4 witness: the theorem applied at `emailGapData`, discharging the
membership hypothesis of the exactness clause at the email-invalid
entry. -/
theorem validateStep0_spec_witness :
    ("email", "Email is invalid") = ("firstName", "First name is required") ∨
    ("email", "Email is invalid") = ("lastName", "Last name is required") ∨
    ("email", "Email is invalid") = ("email", "Email is required") ∨
    ("email", "Email is invalid") = ("email", "Email is invalid") ∨
    ("email", "Email is invalid") = ("phone", "Phone is required") :=
  (validateStep0_spec emailGapData).2.2.2.2.2.1 ("email", "Email is invalid") (by decide)

/-- C2 counterexample: the step-0 completion predicate accepts
`emailGapData` (all four required contact fields non-empty) while
`validateStep 0` rejects it with the email-shape error, so the
completion predicates and the gating validation predicates are not
extensionally equal per step. -/
theorem completion_vs_validation_cex :
    stepSatisfied emailGapData 0 = true ∧
    validateStepErrors 0 emailGapData ≠ [] := by
  constructor
  · decide
  · decide

/-- C2 amended: for steps 1-4 the completion predicate holds exactly when
`validateStep` yields no errors; for step 0 validation success still
implies the completion predicate, but the converse fails because the
completion predicate omits the email-format check. -/
theorem completion_vs_validation_amended (d : ResumeData) :
    (stepSatisfied d 1 = true ↔ validateStepErrors 1 d = []) ∧
    (stepSatisfied d 2 = true ↔ validateStepErrors 2 d = []) ∧
    (stepSatisfied d 3 = true ↔ validateStepErrors 3 d = []) ∧
    (stepSatisfied d 4 = true ↔ validateStepErrors 4 d = []) ∧
    (validateStepErrors 0 d = [] → stepSatisfied d 0 = true) := by
  refine ⟨?_, ?_, ?_, ?_, ?_⟩
  · rw [validateStepErrors_one]
    show decide (0 < d.workExperience.length) = true ↔ _
    split_ifs with h <;> simp_all [List.length_pos]
  · rw [validateStepErrors_two]
    show decide (0 < d.education.length) = true ↔ _
    split_ifs with h <;> simp_all [List.length_pos]
  · rw [validateStepErrors_three]
    show decide (0 < d.skills.length) = true ↔ _
    split_ifs with h <;> simp_all [List.length_pos]
  · rw [validateStepErrors_four]
    show (!(jsTrim d.summary).isEmpty) = true ↔ _
    split_ifs with h <;> simp_all
  · intro h
    rw [validateStepErrors_zero] at h
    have h1 : d.contactInfo.firstName.isEmpty = false := by
      by_contra hc
      rw [Bool.not_eq_false] at hc
      rw [if_pos hc] at h
      simp [List.append_eq_nil] at h
    have h2 : d.contactInfo.lastName.isEmpty = false := by
      by_contra hc
      rw [Bool.not_eq_false] at hc
      rw [if_pos hc] at h
      simp [List.append_eq_nil] at h
    have h3 : d.contactInfo.email.isEmpty = false := by
      by_contra hc
      rw [Bool.not_eq_false] at hc
      rw [if_pos hc] at h
      simp [List.append_eq_nil] at h
    have h4 : d.contactInfo.phone.isEmpty = false := by
      by_contra hc
      rw [Bool.not_eq_false] at hc
      rw [if_pos hc] at h
      simp [List.append_eq_nil] at h
    show (!d.contactInfo.firstName.isEmpty && !d.contactInfo.lastName.isEmpty &&
      !d.contactInfo.email.isEmpty && !d.contactInfo.phone.isEmpty) = true
    rw [h1, h2, h3, h4]
    rfl

/-- C2 witness: the amended theorem applied at `filledData`, discharging
the validation-success hypothesis of the step-0 clause. -/
theorem completion_vs_validation_amended_witness :
    stepSatisfied filledData 0 = true :=
  (completion_vs_validation_amended filledData).2.2.2.2 (by decide)

/-- C3: evaluation at the failing input.  Ids come from
`Date.now().toString()`, so two `addSkill` calls inside the same
millisecond (clock reading 5 twice) append two skills that carry the SAME
id `"5"` (each with default level Beginner), contradicting the claimed
per-collection uniqueness of freshly generated ids. -/
theorem addSkill_same_millisecond_duplicate_ids :
    (addSkill 5 (addSkill 5 initialResumeData)).skills =
      [{ id := "5", name := "", level := SkillLevel.Beginner },
       { id := "5", name := "", level := SkillLevel.Beginner }] := by
  decide

/-- C10: each remove operation deletes exactly the items carrying the
given id, keeps the remaining items in their relative order, leaves every
other component of the aggregate unchanged, and is a no-op when no item
carries the id. -/
theorem remove_spec (i : String) (d : ResumeData) :
    ((removeWorkExperience i d).contactInfo = d.contactInfo ∧
     (removeWorkExperience i d).education = d.education ∧
     (removeWorkExperience i d).skills = d.skills ∧
     (removeWorkExperience i d).summary = d.summary ∧
     List.Sublist (removeWorkExperience i d).workExperience d.workExperience ∧
     (∀ e : WorkExperience,
       e ∈ (removeWorkExperience i d).workExperience ↔
         e ∈ d.workExperience ∧ e.id ≠ i) ∧
     ((∀ e ∈ d.workExperience, e.id ≠ i) → removeWorkExperience i d = d)) ∧
    ((removeEducation i d).contactInfo = d.contactInfo ∧
     (removeEducation i d).workExperience = d.workExperience ∧
     (removeEducation i d).skills = d.skills ∧
     (removeEducation i d).summary = d.summary ∧
     List.Sublist (removeEducation i d).education d.education ∧
     (∀ e : Education,
       e ∈ (removeEducation i d).education ↔ e ∈ d.education ∧ e.id ≠ i) ∧
     ((∀ e ∈ d.education, e.id ≠ i) → removeEducation i d = d)) ∧
    ((removeSkill i d).contactInfo = d.contactInfo ∧
     (removeSkill i d).workExperience = d.workExperience ∧
     (removeSkill i d).education = d.education ∧
     (removeSkill i d).summary = d.summary ∧
     List.Sublist (removeSkill i d).skills d.skills ∧
     (∀ e : Skill, e ∈ (removeSkill i d).skills ↔ e ∈ d.skills ∧ e.id ≠ i) ∧
     ((∀ e ∈ d.skills, e.id ≠ i) → removeSkill i d = d)) := by
  refine ⟨⟨rfl, rfl, rfl, rfl, List.filter_sublist _, ?_, ?_⟩,
    ⟨rfl, rfl, rfl, rfl, List.filter_sublist _, ?_, ?_⟩,
    ⟨rfl, rfl, rfl, rfl, List.filter_sublist _, ?_, ?_⟩⟩
  · intro e
    show e ∈ d.workExperience.filter _ ↔ _
    simp [List.mem_filter]
  · intro h
    unfold removeWorkExperience
    rw [List.filter_eq_self.2 fun a ha => decide_eq_true (h a ha)]
  · intro e
    show e ∈ d.education.filter _ ↔ _
    simp [List.mem_filter]
  · intro h
    unfold removeEducation
    rw [List.filter_eq_self.2 fun a ha => decide_eq_true (h a ha)]
  · intro e
    show e ∈ d.skills.filter _ ↔ _
    simp [List.mem_filter]
  · intro h
    unfold removeSkill
    rw [List.filter_eq_self.2 fun a ha => decide_eq_true (h a ha)]

/-- C10 witness: removing an id carried by no item is a no-op, in each of
the three collections of `filledData`. -/
theorem remove_spec_witness :
    removeWorkExperience "999" filledData = filledData ∧
    removeEducation "999" filledData = filledData ∧
    removeSkill "999" filledData = filledData :=
  ⟨(remove_spec "999" filledData).1.2.2.2.2.2.2 (by decide),
   (remove_spec "999" filledData).2.1.2.2.2.2.2.2 (by decide),
   (remove_spec "999" filledData).2.2.2.2.2.2.2.2 (by decide)⟩

/-- C8: `updateWorkExperience(id, field, value)` rewrites exactly the
items whose id matches, applying the single-field spread to them and
leaving every other item, every other field (the id included), and every
other component of the aggregate unchanged; an id carried by no item
makes the whole call a no-op.  In particular an `endDate`-preserving
`current := v` update never clears the stored end date. -/
theorem updateWorkExperience_spec (i : String) (u : WEUpdate) (d : ResumeData) :
    ((updateWorkExperience i u d).contactInfo = d.contactInfo ∧
     (updateWorkExperience i u d).education = d.education ∧
     (updateWorkExperience i u d).skills = d.skills ∧
     (updateWorkExperience i u d).summary = d.summary ∧
     (updateWorkExperience i u d).workExperience.length = d.workExperience.length) ∧
    (∀ (k : Nat) (hk : k < d.workExperience.length)
        (hk2 : k < (updateWorkExperience i u d).workExperience.length),
      (updateWorkExperience i u d).workExperience.get ⟨k, hk2⟩ =
        if (d.workExperience.get ⟨k, hk⟩).id = i
        then applyWEUpdate (d.workExperience.get ⟨k, hk⟩) u
        else d.workExperience.get ⟨k, hk⟩) ∧
    ((∀ e ∈ d.workExperience, e.id ≠ i) → updateWorkExperience i u d = d) ∧
    ((∀ e : WorkExperience, (applyWEUpdate e u).id = e.id) ∧
     (∀ (e : WorkExperience) (v : Bool),
       applyWEUpdate e (WEUpdate.current v) = { e with current := v }) ∧
     (∀ (e : WorkExperience) (v : String),
       applyWEUpdate e (WEUpdate.endDate v) = { e with endDate := v }) ∧
     (∀ e : WorkExperience,
       (∀ v, u ≠ WEUpdate.company v) → (applyWEUpdate e u).company = e.company) ∧
     (∀ e : WorkExperience,
       (∀ v, u ≠ WEUpdate.position v) → (applyWEUpdate e u).position = e.position) ∧
     (∀ e : WorkExperience,
       (∀ v, u ≠ WEUpdate.startDate v) → (applyWEUpdate e u).startDate = e.startDate) ∧
     (∀ e : WorkExperience,
       (∀ v, u ≠ WEUpdate.endDate v) → (applyWEUpdate e u).endDate = e.endDate) ∧
     (∀ e : WorkExperience,
       (∀ v, u ≠ WEUpdate.current v) → (applyWEUpdate e u).current = e.current) ∧
     (∀ e : WorkExperience,
       (∀ v, u ≠ WEUpdate.description v) →
        (applyWEUpdate e u).description = e.description)) := by
  refine ⟨⟨rfl, rfl, rfl, rfl, ?_⟩, ?_, ?_, ?_, ?_, ?_, ?_, ?_, ?_, ?_, ?_, ?_⟩
  · show (d.workExperience.map _).length = _
    rw [List.length_map]
  · intro k hk hk2
    show (d.workExperience.map _).get ⟨k, hk2⟩ = _
    simp [List.get_eq_getElem, List.getElem_map]
  · intro h
    unfold updateWorkExperience
    have hmap : (d.workExperience.map fun exp =>
        if exp.id = i then applyWEUpdate exp u else exp) = d.workExperience.map id :=
      List.map_congr_left fun e he => by rw [if_neg (h e he)]; rfl
    rw [hmap, List.map_id]
  · intro e
    cases u <;> rfl
  · intro e v
    rfl
  · intro e v
    rfl
  · intro e h
    cases u <;> first | rfl | exact absurd rfl (h _)
  · intro e h
    cases u <;> first | rfl | exact absurd rfl (h _)
  · intro e h
    cases u <;> first | rfl | exact absurd rfl (h _)
  · intro e h
    cases u <;> first | rfl | exact absurd rfl (h _)
  · intro e h
    cases u <;> first | rfl | exact absurd rfl (h _)
  · intro e h
    cases u <;> first | rfl | exact absurd rfl (h _)

/-- C8 witness: the theorem at concrete inputs — a toggle of
`current := true` on the only item of `filledData` keeps its stored
`endDate`, an update targeting an absent id is a no-op, and the per-index
clause evaluated at index 0. -/
theorem updateWorkExperience_spec_witness :
    updateWorkExperience "999" (WEUpdate.company "X") filledData = filledData ∧
    (applyWEUpdate sampleExp (WEUpdate.current true)).endDate = sampleExp.endDate ∧
    (updateWorkExperience "100" (WEUpdate.current true) filledData).workExperience.get
        ⟨0, by decide⟩ =
      (if (filledData.workExperience.get ⟨0, by decide⟩).id = "100"
       then applyWEUpdate (filledData.workExperience.get ⟨0, by decide⟩)
         (WEUpdate.current true)
       else filledData.workExperience.get ⟨0, by decide⟩) :=
  ⟨(updateWorkExperience_spec "999" (WEUpdate.company "X") filledData).2.2.1 (by decide),
   (updateWorkExperience_spec "999" (WEUpdate.current true)
      filledData).2.2.2.2.2.2.2.2.2.1 sampleExp (fun v h => WEUpdate.noConfusion h),
   (updateWorkExperience_spec "100" (WEUpdate.current true) filledData).2.1 0
      (by decide) (by decide)⟩

/-! ## Helper lemmas: completion counting -/

/-- A 0/1 indicator is monotone along an implication of its condition. -/
theorem ind_le {p q : Prop} [Decidable p] [Decidable q] (h : p → q) :
    (if p then 1 else 0) ≤ (if q then 1 else 0) := by
  by_cases h1 : p
  · rw [if_pos h1, if_pos (h h1)]
  · rw [if_neg h1]
    exact Nat.zero_le _

/-- `Math.round` of a nonnegative ratio is monotone in the numerator. -/
theorem mathRound_mono {a b : Nat} (den : Nat) (h : a ≤ b) :
    mathRound a den ≤ mathRound b den :=
  Nat.div_le_div_right (by omega)

/-- `completedCount` is monotone along pointwise implications of the five
step conditions. -/
theorem completedCount_le {d1 d2 : ResumeData}
    (h1 : (!d1.contactInfo.firstName.isEmpty && !d1.contactInfo.lastName.isEmpty &&
           !d1.contactInfo.email.isEmpty && !d1.contactInfo.phone.isEmpty) = true →
          (!d2.contactInfo.firstName.isEmpty && !d2.contactInfo.lastName.isEmpty &&
           !d2.contactInfo.email.isEmpty && !d2.contactInfo.phone.isEmpty) = true)
    (h2 : 0 < d1.workExperience.length → 0 < d2.workExperience.length)
    (h3 : 0 < d1.education.length → 0 < d2.education.length)
    (h4 : 0 < d1.skills.length → 0 < d2.skills.length)
    (h5 : (!(jsTrim d1.summary).isEmpty) = true → (!(jsTrim d2.summary).isEmpty) = true) :
    completedCount d1 ≤ completedCount d2 := by
  unfold completedCount
  exact Nat.add_le_add (Nat.add_le_add (Nat.add_le_add (Nat.add_le_add
    (ind_le h1) (ind_le h2)) (ind_le h3)) (ind_le h4)) (ind_le h5)

/-- C6: `getCompletionPercentage` is the rounded ratio
`round(100 · satisfiedCount / 5)` over the five per-step satisfaction
predicates; it is 0 on the fresh empty aggregate, 100 when all five
predicates hold, and it never decreases under a contact-field fill, an
item addition, or a non-blank summary. -/
theorem getCompletionPercentage_spec (d : ResumeData) :
    (getCompletionPercentage d =
      mathRound (100 * (List.range 5).countP (fun k => stepSatisfied d k)) 5) ∧
    (getCompletionPercentage initialResumeData = 0) ∧
    ((stepSatisfied d 0 = true ∧ stepSatisfied d 1 = true ∧ stepSatisfied d 2 = true ∧
      stepSatisfied d 3 = true ∧ stepSatisfied d 4 = true) →
      getCompletionPercentage d = 100) ∧
    (∀ (f : ContactField) (v : String), v ≠ "" →
      getCompletionPercentage d ≤ getCompletionPercentage (setContactField f v d)) ∧
    (∀ t : Nat, getCompletionPercentage d ≤ getCompletionPercentage (addWorkExperience t d)) ∧
    (∀ t : Nat, getCompletionPercentage d ≤ getCompletionPercentage (addEducation t d)) ∧
    (∀ t : Nat, getCompletionPercentage d ≤ getCompletionPercentage (addSkill t d)) ∧
    (∀ t : String, jsTrim t ≠ "" →
      getCompletionPercentage d ≤ getCompletionPercentage (setSummary t d)) := by
  refine ⟨?_, by decide, ?_, ?_, ?_, ?_, ?_, ?_⟩
  · have hcount : (List.range 5).countP (fun k => stepSatisfied d k) = completedCount d := by
      show List.countP _ [0, 1, 2, 3, 4] = _
      simp only [List.countP_cons, List.countP_nil, stepSatisfied, completedCount,
        decide_eq_true_eq]
      split_ifs <;> omega
    rw [hcount]
    show mathRound (completedCount d * 100) STEPS.length = _
    rw [Nat.mul_comm]
    rfl
  · rintro ⟨h0, h1, h2, h3, h4⟩
    have h0' : (!d.contactInfo.firstName.isEmpty && !d.contactInfo.lastName.isEmpty &&
        !d.contactInfo.email.isEmpty && !d.contactInfo.phone.isEmpty) = true := h0
    have h4' : (!(jsTrim d.summary).isEmpty) = true := h4
    have hc : completedCount d = 5 := by
      unfold completedCount
      rw [if_pos h0', if_pos (of_decide_eq_true h1), if_pos (of_decide_eq_true h2),
        if_pos (of_decide_eq_true h3), if_pos h4']
    show mathRound (completedCount d * 100) STEPS.length = 100
    rw [hc]
    decide
  · intro f v hv
    have hvE : v.isEmpty = false := by
      by_contra hc
      rw [Bool.not_eq_false] at hc
      exact hv ((String.isEmpty_iff v).1 hc)
    show mathRound (completedCount d * 100) STEPS.length ≤
      mathRound (completedCount (setContactField f v d) * 100) STEPS.length
    refine mathRound_mono _ (Nat.mul_le_mul_right _ ?_)
    cases f
    · refine completedCount_le ?_ (fun h => h) (fun h => h) (fun h => h) (fun h => h)
      intro h
      show (!v.isEmpty && !d.contactInfo.lastName.isEmpty &&
        !d.contactInfo.email.isEmpty && !d.contactInfo.phone.isEmpty) = true
      simp only [Bool.and_eq_true] at h ⊢
      exact ⟨⟨⟨by simp [hvE], h.1.1.2⟩, h.1.2⟩, h.2⟩
    · refine completedCount_le ?_ (fun h => h) (fun h => h) (fun h => h) (fun h => h)
      intro h
      show (!d.contactInfo.firstName.isEmpty && !v.isEmpty &&
        !d.contactInfo.email.isEmpty && !d.contactInfo.phone.isEmpty) = true
      simp only [Bool.and_eq_true] at h ⊢
      exact ⟨⟨⟨h.1.1.1, by simp [hvE]⟩, h.1.2⟩, h.2⟩
    · refine completedCount_le ?_ (fun h => h) (fun h => h) (fun h => h) (fun h => h)
      intro h
      show (!d.contactInfo.firstName.isEmpty && !d.contactInfo.lastName.isEmpty &&
        !v.isEmpty && !d.contactInfo.phone.isEmpty) = true
      simp only [Bool.and_eq_true] at h ⊢
      exact ⟨⟨⟨h.1.1.1, h.1.1.2⟩, by simp [hvE]⟩, h.2⟩
    · refine completedCount_le ?_ (fun h => h) (fun h => h) (fun h => h) (fun h => h)
      intro h
      show (!d.contactInfo.firstName.isEmpty && !d.contactInfo.lastName.isEmpty &&
        !d.contactInfo.email.isEmpty && !v.isEmpty) = true
      simp only [Bool.and_eq_true] at h ⊢
      exact ⟨⟨⟨h.1.1.1, h.1.1.2⟩, h.1.2⟩, by simp [hvE]⟩
    · exact completedCount_le (fun h => h) (fun h => h) (fun h => h) (fun h => h) (fun h => h)
    · exact completedCount_le (fun h => h) (fun h => h) (fun h => h) (fun h => h) (fun h => h)
    · exact completedCount_le (fun h => h) (fun h => h) (fun h => h) (fun h => h) (fun h => h)
    · exact completedCount_le (fun h => h) (fun h => h) (fun h => h) (fun h => h) (fun h => h)
  · intro t
    show mathRound (completedCount d * 100) STEPS.length ≤
      mathRound (completedCount (addWorkExperience t d) * 100) STEPS.length
    refine mathRound_mono _ (Nat.mul_le_mul_right _ ?_)
    refine completedCount_le (fun h => h) ?_ (fun h => h) (fun h => h) (fun h => h)
    intro _
    show 0 < (d.workExperience ++ [_]).length
    simp
  · intro t
    show mathRound (completedCount d * 100) STEPS.length ≤
      mathRound (completedCount (addEducation t d) * 100) STEPS.length
    refine mathRound_mono _ (Nat.mul_le_mul_right _ ?_)
    refine completedCount_le (fun h => h) (fun h => h) ?_ (fun h => h) (fun h => h)
    intro _
    show 0 < (d.education ++ [_]).length
    simp
  · intro t
    show mathRound (completedCount d * 100) STEPS.length ≤
      mathRound (completedCount (addSkill t d) * 100) STEPS.length
    refine mathRound_mono _ (Nat.mul_le_mul_right _ ?_)
    refine completedCount_le (fun h => h) (fun h => h) (fun h => h) ?_ (fun h => h)
    intro _
    show 0 < (d.skills ++ [_]).length
    simp
  · intro t ht
    have htE : (jsTrim t).isEmpty = false := by
      by_contra hc
      rw [Bool.not_eq_false] at hc
      exact ht ((String.isEmpty_iff _).1 hc)
    show mathRound (completedCount d * 100) STEPS.length ≤
      mathRound (completedCount (setSummary t d) * 100) STEPS.length
    refine mathRound_mono _ (Nat.mul_le_mul_right _ ?_)
    refine completedCount_le (fun h => h) (fun h => h) (fun h => h) (fun h => h) ?_
    intro _
    show (!(jsTrim t).isEmpty) = true
    simp [htE]

/-- C6 witness: the theorem applied at concrete aggregates — 100 percent
on `filledData`, and three monotone single mutations starting from the
empty aggregate. -/
theorem getCompletionPercentage_spec_witness :
    getCompletionPercentage filledData = 100 ∧
    getCompletionPercentage initialResumeData ≤
      getCompletionPercentage (setContactField ContactField.firstName "Ada" initialResumeData) ∧
    getCompletionPercentage initialResumeData ≤
      getCompletionPercentage (addSkill 7 initialResumeData) ∧
    getCompletionPercentage initialResumeData ≤
      getCompletionPercentage (setSummary "Engineer." initialResumeData) :=
  ⟨(getCompletionPercentage_spec filledData).2.2.1
      ⟨by decide, by decide, by decide, by decide, by decide⟩,
   (getCompletionPercentage_spec initialResumeData).2.2.2.1 ContactField.firstName "Ada"
      (by decide),
   (getCompletionPercentage_spec initialResumeData).2.2.2.2.2.1 7,
   (getCompletionPercentage_spec initialResumeData).2.2.2.2.2.2.2 "Engineer." (by decide)⟩

end ResumeBuilder
